import Mathlib

/-!
Shallow embedding of the sync-playlist Cross-Service Transfer Engine
(Go server, package `handlers` / `ratelimit` / `auth`), together with
theorems settling the frozen claims about it.

Strings are modelled as Lean `String` (lists of Unicode scalar values),
matching Go's rune-level treatment of the operations that occur here.
Go `float64` confidence arithmetic is modelled over `ℚ`; every constant
and sum that occurs (multiples of 1/10 up to 1) is exact in both
semantics, so the bounds proved here hold for the Go program as well.
-/

namespace SyncPlaylist

/-! ## Go string primitives used by the matching engine -/

/-- Whitespace as classified by Go `unicode.IsSpace` (the Unicode
White_Space property), used by `strings.TrimSpace`. -/
def isGoSpace (c : Char) : Bool :=
  (0x09 ≤ c.val && c.val ≤ 0x0D) || c.val = 0x20 ||
  c.val = 0x85 || c.val = 0xA0 || c.val = 0x1680 ||
  (0x2000 ≤ c.val && c.val ≤ 0x200A) ||
  c.val = 0x2028 || c.val = 0x2029 || c.val = 0x202F || c.val = 0x205F ||
  c.val = 0x3000

/-- Go `strings.TrimSpace` on a rune list: drop leading and trailing whitespace. -/
def trimSpaceList (l : List Char) : List Char :=
  ((l.dropWhile isGoSpace).reverse.dropWhile isGoSpace).reverse

/-- Go `strings.TrimSpace`. -/
def goTrimSpace (s : String) : String :=
  String.mk (trimSpaceList s.data)

/-- Case mapping of a single rune as performed by Go `strings.ToLower`;
modelled on the ASCII range (all inputs exercised by the repository's
claims), other runes left unchanged. -/
def goCharToLower (c : Char) : Char :=
  if 'A' ≤ c ∧ c ≤ 'Z' then Char.ofNat (c.toNat + 32) else c

/-- Go `strings.ToLower`. -/
def goToLower (s : String) : String :=
  String.mk (s.data.map goCharToLower)

/-- Substring occurrence test on rune lists (`strings.Contains` core):
`containsSub hay needle` is true iff `needle` occurs contiguously in `hay`. -/
def containsSub : List Char → List Char → Bool
  | [], needle => needle.isEmpty
  | c :: rest, needle => needle.isPrefixOf (c :: rest) || containsSub rest needle

/-- Go `strings.Contains s sub`. -/
def goContains (s sub : String) : Bool :=
  containsSub s.data sub.data

/-- First index at which `needle` occurs in `hay` (`strings.Index`),
`none` when absent. -/
def indexOfSub (needle : List Char) : List Char → Option Nat
  | [] => if needle.isEmpty then some 0 else none
  | c :: rest =>
    if needle.isPrefixOf (c :: rest) then some 0
    else (indexOfSub needle rest).map (· + 1)

/-- One fuel-indexed pass of `strings.Replace(hay, needle, "", -1)`:
left-to-right, non-overlapping removal of every occurrence of `needle`.
The fuel bounds the number of consumed runes, so `hay.length` suffices. -/
def removeAllAux (needle : List Char) : Nat → List Char → List Char
  | 0, hay => hay
  | _ + 1, [] => []
  | fuel + 1, c :: rest =>
    if needle ≠ [] ∧ needle.isPrefixOf (c :: rest) then
      removeAllAux needle fuel ((c :: rest).drop needle.length)
    else
      c :: removeAllAux needle fuel rest

/-- Go `strings.Replace(hay, needle, "", -1)` on rune lists. -/
def removeAll (needle hay : List Char) : List Char :=
  removeAllAux needle hay.length hay

/-! ## Track matching engine (`part_003`, package handlers) -/

/-- The transient `Track` record produced by playlist fetches. -/
structure Track where
  id : String
  name : String
  artist : String
  album : String
  duration : Nat
  isrc : String
deriving DecidableEq, Repr

/-- The marketing suffixes stripped by `parseYouTubeTitle`, in source order. -/
def youTubeSuffixes : List String :=
  ["(Official Video)", "(Official Audio)", "[Official Video]", "[Official Audio]",
   "(Official Music Video)", "[Official Music Video]", "(Lyric Video)", "[Lyric Video]",
   "(Visualizer)", "[Visualizer]", "(Lyrics)", "[Lyrics]", "(Live)", "[Live]",
   "(Acoustic)", "[Acoustic]", "(Remix)", "[Remix]", "(Cover)", "[Cover]",
   "| Official Video", "| Official Audio", "| Official Music Video"]

/-- Split a rune list at the first occurrence of any character from `seps`:
returns the runes before and after that character.  This is exactly the
(unique, lazy-leftmost) match of the Go regular expressions of the shape
`^(.*?)\s*SEP\s*(.*)$` used by `parseYouTubeTitle`, once the groups are
additionally trimmed: the lazy first group together with the surrounding
`\s*` produces the split at the first separator character, with whitespace
around the separator absorbed — which trimming reproduces. -/
def splitAtFirstSep (seps : List Char) : List Char → Option (List Char × List Char)
  | [] => none
  | c :: rest =>
    if c ∈ seps then some ([], rest)
    else (splitAtFirstSep seps rest).map (fun p => (c :: p.1, p.2))

/-- The separator character classes of the four patterns tried by
`parseYouTubeTitle`, in source order: dash class (hyphen, en dash, em dash),
colon, pipe, and plain hyphen again. -/
def titlePatterns : List (List Char) :=
  [['-', '–', '—'], [':'], ['|'], ['-']]

/-- Try the separator patterns in order; the first split whose two trimmed
groups are both non-empty wins. -/
def tryPatterns (title : List Char) : List (List Char) → Option (String × String)
  | [] => none
  | seps :: restPatterns =>
    match splitAtFirstSep seps title with
    | some (before, after) =>
      let artist := trimSpaceList before
      let track := trimSpaceList after
      if artist ≠ [] ∧ track ≠ [] then
        some (String.mk artist, String.mk track)
      else
        tryPatterns title restPatterns
    | none => tryPatterns title restPatterns

/-- The function `parseYouTubeTitle`: trim, remove every marketing suffix, trim again,
then try the separator patterns; if none yields two non-empty groups,
return the whole cleaned title as the track name with an empty artist. -/
def parseYouTubeTitle (title : String) : String × String :=
  let t0 := trimSpaceList title.data
  let t1 := youTubeSuffixes.foldl (fun acc suf => removeAll suf.data acc) t0
  let t2 := trimSpaceList t1
  match tryPatterns t2 titlePatterns with
  | some r => r
  | none => ("", String.mk t2)

/-- The suffix list of `removeCommonSuffixes`. -/
def commonSuffixes : List String :=
  [" - remaster", " (remaster", " - live", " (live", " - acoustic", " (acoustic"]

/-- The function `removeCommonSuffixes`: for each suffix in order, truncate the name at
the first occurrence of that suffix; finally trim. -/
def removeCommonSuffixes (name : String) : String :=
  let result := commonSuffixes.foldl
    (fun res suf =>
      match indexOfSub suf.data res with
      | some idx => res.take idx
      | none => res)
    name.data
  goTrimSpace (String.mk result)

/-- The track-name sub-score of `calculateMatchConfidence`. -/
def nameScore (snn tnn : String) : ℚ :=
  if snn = tnn then 6/10
  else if goContains snn tnn = true ∨ goContains tnn snn = true then 4/10
  else if removeCommonSuffixes snn = removeCommonSuffixes tnn then 5/10
  else 0

/-- The artist sub-score of `calculateMatchConfidence`. -/
def artistScore (san tan : String) : ℚ :=
  if san = tan then 4/10
  else if goContains san tan = true ∨ goContains tan san = true then 2/10
  else 0

/-- The function `calculateMatchConfidence`: normalize all four strings (trim, lower),
then add the name sub-score and the artist sub-score. -/
def calculateMatchConfidence (sourceName sourceArtist targetName targetArtist : String) : ℚ :=
  let sourceNameNorm := goToLower (goTrimSpace sourceName)
  let targetNameNorm := goToLower (goTrimSpace targetName)
  let sourceArtistNorm := goToLower (goTrimSpace sourceArtist)
  let targetArtistNorm := goToLower (goTrimSpace targetArtist)
  nameScore sourceNameNorm targetNameNorm + artistScore sourceArtistNorm targetArtistNorm

/-- The function `calculateYouTubeMatchConfidence`: additive heuristic over the
lower-cased candidate title and description. -/
def calculateYouTubeMatchConfidence (track : Track) (title description : String) : ℚ :=
  let titleLower := goToLower title
  let descLower := goToLower description
  let trackNameLower := goToLower track.name
  let artistLower := goToLower track.artist
  (if goContains titleLower trackNameLower then (4 : ℚ)/10 else 0) +
  (if goContains titleLower artistLower then (3 : ℚ)/10 else 0) +
  (if goContains titleLower "official" then (2 : ℚ)/10 else 0) +
  (if goContains titleLower "audio" || goContains descLower "music" then (1 : ℚ)/10 else 0)

/-! ## Theorems about the matching engine -/

/-- The name sub-score lies in [0, 6/10]. -/
theorem nameScore_bounds (a b : String) : 0 ≤ nameScore a b ∧ nameScore a b ≤ 6/10 := by
  unfold nameScore
  split_ifs <;> norm_num

/-- The artist sub-score lies in [0, 4/10]. -/
theorem artistScore_bounds (a b : String) : 0 ≤ artistScore a b ∧ artistScore a b ≤ 4/10 := by
  unfold artistScore
  split_ifs <;> norm_num

/-- C4: for all input strings (including an empty artist), both the
structured scorer `calculateMatchConfidence` and the unstructured scorer
`calculateYouTubeMatchConfidence` return a confidence within the closed
interval [0, 1]. -/
theorem confidence_in_unit_interval (sn sa tn ta title desc : String) (tr : Track) :
    (0 ≤ calculateMatchConfidence sn sa tn ta ∧ calculateMatchConfidence sn sa tn ta ≤ 1) ∧
    (0 ≤ calculateYouTubeMatchConfidence tr title desc ∧
      calculateYouTubeMatchConfidence tr title desc ≤ 1) := by
  constructor
  · simp only [calculateMatchConfidence]
    obtain ⟨hn0, hn1⟩ := nameScore_bounds (goToLower (goTrimSpace sn)) (goToLower (goTrimSpace tn))
    obtain ⟨ha0, ha1⟩ := artistScore_bounds (goToLower (goTrimSpace sa)) (goToLower (goTrimSpace ta))
    constructor
    · linarith
    · linarith
  · simp only [calculateYouTubeMatchConfidence]
    split_ifs <;> norm_num

/-- The name sub-score is symmetric in its two arguments. -/
theorem nameScore_comm (a b : String) : nameScore a b = nameScore b a := by
  unfold nameScore
  by_cases h1 : a = b
  · rw [if_pos h1, if_pos (show b = a from h1.symm)]
  · rw [if_neg h1, if_neg (show ¬ (b = a) from fun h => h1 h.symm)]
    by_cases h2 : goContains a b = true ∨ goContains b a = true
    · rw [if_pos h2,
        if_pos (show goContains b a = true ∨ goContains a b = true from Or.symm h2)]
    · rw [if_neg h2,
        if_neg (show ¬ (goContains b a = true ∨ goContains a b = true) from
          fun h => h2 (Or.symm h))]
      by_cases h3 : removeCommonSuffixes a = removeCommonSuffixes b
      · rw [if_pos h3,
          if_pos (show removeCommonSuffixes b = removeCommonSuffixes a from h3.symm)]
      · rw [if_neg h3,
          if_neg (show ¬ (removeCommonSuffixes b = removeCommonSuffixes a) from
            fun h => h3 h.symm)]

/-- The artist sub-score is symmetric in its two arguments. -/
theorem artistScore_comm (a b : String) : artistScore a b = artistScore b a := by
  unfold artistScore
  by_cases h1 : a = b
  · rw [if_pos h1, if_pos (show b = a from h1.symm)]
  · rw [if_neg h1, if_neg (show ¬ (b = a) from fun h => h1 h.symm)]
    by_cases h2 : goContains a b = true ∨ goContains b a = true
    · rw [if_pos h2,
        if_pos (show goContains b a = true ∨ goContains a b = true from Or.symm h2)]
    · rw [if_neg h2,
        if_neg (show ¬ (goContains b a = true ∨ goContains a b = true) from
          fun h => h2 (Or.symm h))]

/-- C9: the structured confidence score is symmetric under swapping the
source and target track: every branch condition (equality, mutual
containment, suffix-cleaned equality) is symmetric in its two arguments. -/
theorem calculateMatchConfidence_comm (sn sa tn ta : String) :
    calculateMatchConfidence sn sa tn ta = calculateMatchConfidence tn ta sn sa := by
  simp only [calculateMatchConfidence]
  rw [nameScore_comm, artistScore_comm]

/-- C5: `parseYouTubeTitle` strips the marketing suffixes and splits at the
first separator of the first pattern yielding two non-empty trimmed groups;
with no recognized separator the cleaned title becomes the track name with
an empty artist.  Concretely: "Daft Punk - One More Time (Official Video)"
parses to artist "Daft Punk" and track "One More Time", and "Intro" parses
to artist "" and track "Intro". -/
theorem parseYouTubeTitle_examples :
    parseYouTubeTitle "Daft Punk - One More Time (Official Video)" =
      ("Daft Punk", "One More Time") ∧
    parseYouTubeTitle "Intro" = ("", "Intro") := by
  constructor <;> decide

/-! ## Transfer orchestrator (`processTransfer`, `part_003`)

The orchestrator's provider calls (`fetchPlaylistTracks`, `createPlaylist`,
`searchTrack`, `addTrackToPlaylist`) go over HTTP; they are modelled by an
oracle environment giving the outcome of each call, in the order the code
makes them.  The persisted `Transfer` record is modelled as the sequence of
its database snapshots (one per `Update`/`Save`), and the `TransferTrack`
rows as the list written by the loop. -/

/-- The persisted `Transfer` job record. -/
structure Transfer where
  id : Nat
  userID : Nat
  sourceService : String
  sourcePlaylistID : String
  sourcePlaylistName : String
  targetService : String
  targetPlaylistID : String
  targetPlaylistName : String
  status : String
  tracksTotal : Nat
  tracksMatched : Nat
  tracksFailed : Nat
  errorMessage : String
deriving DecidableEq, Repr

/-- A persisted `TransferTrack` row. -/
structure TransferTrack where
  transferID : Nat
  sourceTrackID : String
  sourceTrackName : String
  sourceArtist : String
  targetTrackID : String
  targetTrackName : String
  targetArtist : String
  status : String
  matchConfidence : ℚ
deriving DecidableEq, Repr

/-- Outcome of the provider calls made for one source track:
the result of `searchTrack` (a target track and its confidence, or an
error), and whether the subsequent `addTrackToPlaylist` call succeeds
(consulted only when the search returned a track with a non-empty id). -/
structure TrackEnv where
  search : Except String (Track × ℚ)
  addOk : Bool

/-- Outcomes of the stage-level provider calls of one `processTransfer` run:
the source fetch (track list and source playlist name, or an error), the
target playlist creation (playlist id, or an error), and the per-track
call outcomes indexed by loop position. -/
structure TransferEnv where
  fetch : Except String (List Track × String)
  create : Except String String
  perTrack : Nat → TrackEnv

/-- One iteration of the per-track loop: builds the `TransferTrack` row
exactly as the code does and reports whether the track counted as matched
(`true` increments `tracksMatched`, `false` increments `tracksFailed`). -/
def processOneTrack (transferID : Nat) (track : Track) (env : TrackEnv) :
    TransferTrack × Bool :=
  let base : TransferTrack :=
    { transferID := transferID
      sourceTrackID := track.id
      sourceTrackName := track.name
      sourceArtist := track.artist
      targetTrackID := ""
      targetTrackName := ""
      targetArtist := ""
      status := "not_found"
      matchConfidence := 0 }
  match env.search with
  | .error _ => (base, false)
  | .ok (targetTrack, confidence) =>
    if targetTrack.id = "" then (base, false)
    else if env.addOk then
      ({ base with
          targetTrackID := targetTrack.id
          targetTrackName := targetTrack.name
          targetArtist := targetTrack.artist
          status := "matched"
          matchConfidence := confidence }, true)
    else
      ({ base with
          targetTrackID := targetTrack.id
          targetTrackName := targetTrack.name
          targetArtist := targetTrack.artist
          status := "error"
          matchConfidence := confidence }, false)

/-- The per-track loop from position `i`: returns the matched counter, the
failed counter and the rows written, accumulated exactly as in the code. -/
def runTrackLoop (transferID : Nat) (env : Nat → TrackEnv) (i : Nat) :
    List Track → Nat × Nat × List TransferTrack
  | [] => (0, 0, [])
  | track :: rest =>
    let r := processOneTrack transferID track (env i)
    let acc := runTrackLoop transferID env (i + 1) rest
    (acc.1 + (if r.2 then 1 else 0),
     acc.2.1 + (if r.2 then 0 else 1),
     r.1 :: acc.2.2)

/-- The orchestrator `processTransfer`: the background job.  Returns the successive persisted
snapshots of the `Transfer` record (in write order) and the
`TransferTrack` rows written.  The run starts by persisting status
`processing`; stage failures (fetch error, empty playlist, create error)
end it with status `failed`; otherwise the source playlist name, then the
target playlist data and `tracksTotal`, then the loop results and the
final status are persisted. -/
def processTransfer (t0 : Transfer) (targetPlaylistNameReq : String)
    (env : TransferEnv) : List Transfer × List TransferTrack :=
  let tProc := { t0 with status := "processing" }
  match env.fetch with
  | .error e =>
    ([tProc, { tProc with
        status := "failed"
        errorMessage := "Failed to fetch source playlist: " ++ e }], [])
  | .ok (sourceTracks, sourcePlaylistName) =>
    if sourceTracks = [] then
      ([tProc, { tProc with
          status := "failed"
          errorMessage := "Source playlist is empty" }], [])
    else
      let tNamed := { tProc with sourcePlaylistName := sourcePlaylistName }
      let targetPlaylistName :=
        if targetPlaylistNameReq = "" then sourcePlaylistName else targetPlaylistNameReq
      match env.create with
      | .error e =>
        ([tProc, tNamed, { tNamed with
            status := "failed"
            errorMessage := "Failed to create target playlist: " ++ e }], [])
      | .ok targetPlaylistID =>
        let tTotal := { tNamed with
          targetPlaylistID := targetPlaylistID
          targetPlaylistName := targetPlaylistName
          tracksTotal := sourceTracks.length }
        let loopResult := runTrackLoop t0.id env.perTrack 0 sourceTracks
        let matchedTracks := loopResult.1
        let failedTracks := loopResult.2.1
        let status :=
          if 0 < matchedTracks then
            if failedTracks = 0 then "completed" else "completed_with_errors"
          else "failed"
        ([tProc, tNamed, tTotal,
          { tTotal with
              tracksMatched := matchedTracks
              tracksFailed := failedTracks
              status := status }], loopResult.2.2)

/-- The last persisted snapshot of a run (the terminal `Transfer` record). -/
def finalTransfer (t0 : Transfer) (targetPlaylistNameReq : String)
    (env : TransferEnv) : Transfer :=
  (processTransfer t0 targetPlaylistNameReq env).1.getLastD t0

/-! ## Theorems about the orchestrator -/

/-- Each loop iteration writes exactly one row and increments exactly one
counter: the counters sum to the number of rows, which is the number of
source tracks processed. -/
theorem runTrackLoop_counts (transferID : Nat) (env : Nat → TrackEnv) :
    ∀ (tracks : List Track) (i : Nat),
      (runTrackLoop transferID env i tracks).1 +
        (runTrackLoop transferID env i tracks).2.1 =
        (runTrackLoop transferID env i tracks).2.2.length ∧
      (runTrackLoop transferID env i tracks).2.2.length = tracks.length := by
  intro tracks
  induction tracks with
  | nil => intro i; simp [runTrackLoop]
  | cons track rest ih =>
    intro i
    obtain ⟨ih1, ih2⟩ := ih (i + 1)
    simp only [runTrackLoop, List.length_cons]
    constructor
    · by_cases hm : (processOneTrack transferID track (env i)).2 <;>
        simp [hm] <;> omega
    · simp [ih2]

/-- C1: starting from the initial (pending, zero-counter) record, the sum
`tracksMatched + tracksFailed` of the terminal record equals the number of
`TransferTrack` rows written, that count never exceeds `tracksTotal`, and
every persisted snapshot carries either the initial `tracksTotal = 0` or
the single value set after the source fetch succeeded (so `tracksTotal` is
set once and never changes afterwards). -/
theorem transfer_counter_invariant (t0 : Transfer) (req : String) (env : TransferEnv)
    (hm : t0.tracksMatched = 0) (hf : t0.tracksFailed = 0) (ht : t0.tracksTotal = 0) :
    (finalTransfer t0 req env).tracksMatched + (finalTransfer t0 req env).tracksFailed =
      (processTransfer t0 req env).2.length ∧
    (processTransfer t0 req env).2.length ≤ (finalTransfer t0 req env).tracksTotal ∧
    (∀ s ∈ (processTransfer t0 req env).1,
      s.tracksTotal = 0 ∨ s.tracksTotal = (finalTransfer t0 req env).tracksTotal) := by
  cases hfetch : env.fetch with
  | error e =>
    simp [processTransfer, finalTransfer, hfetch, hm, hf, ht]
  | ok p =>
    obtain ⟨ts, n⟩ := p
    by_cases hts : ts = []
    · simp [processTransfer, finalTransfer, hfetch, hts, hm, hf, ht]
    · cases hcreate : env.create with
      | error e =>
        simp [processTransfer, finalTransfer, hfetch, hts, hcreate, hm, hf, ht]
      | ok pid =>
        obtain ⟨hc1, hc2⟩ := runTrackLoop_counts t0.id env.perTrack ts 0
        simp only [processTransfer, finalTransfer, hfetch, hcreate, if_neg hts,
          List.getLastD_cons, List.getLastD_nil, List.mem_cons,
          List.not_mem_nil, or_false]
        refine ⟨hc1, ?_, ?_⟩
        · omega
        · intro s hs
          rcases hs with h | h | h | h <;> subst h <;> simp [ht]

/-- C2: when the source fetch returns a non-empty list and the playlist
creation succeeds (so the per-track loop completes), the final status is
`failed` when zero tracks matched, `completed` when no attempted track
failed, and `completed_with_errors` when some matched and some failed. -/
theorem transfer_final_status (t0 : Transfer) (req : String) (env : TransferEnv)
    (ts : List Track) (n : String) (pid : String)
    (hfe : env.fetch = .ok (ts, n)) (hne : ts ≠ []) (hc : env.create = .ok pid) :
    ((finalTransfer t0 req env).tracksMatched = 0 →
      (finalTransfer t0 req env).status = "failed") ∧
    ((finalTransfer t0 req env).tracksFailed = 0 →
      (finalTransfer t0 req env).status = "completed") ∧
    (0 < (finalTransfer t0 req env).tracksMatched →
      0 < (finalTransfer t0 req env).tracksFailed →
      (finalTransfer t0 req env).status = "completed_with_errors") := by
  obtain ⟨hc1, hc2⟩ := runTrackLoop_counts t0.id env.perTrack ts 0
  have hlen : ts.length ≠ 0 := fun h => hne (List.length_eq_zero.mp h)
  simp only [finalTransfer, processTransfer, hfe, hc, if_neg hne,
    List.getLastD_cons, List.getLastD_nil]
  refine ⟨?_, ?_, ?_⟩
  · intro h0
    rw [if_neg (by omega)]
  · intro h0
    rw [if_pos (by omega), if_pos h0]
  · intro hmpos hfpos
    rw [if_pos hmpos, if_neg (by omega)]

/-- A concrete empty-playlist run: initial pending record and an
environment whose source fetch succeeds with zero tracks and playlist name
"MyPlaylist". -/
def emptyRunT0 : Transfer :=
  { id := 1, userID := 1, sourceService := "spotify", sourcePlaylistID := "p1",
    sourcePlaylistName := "", targetService := "youtube", targetPlaylistID := "",
    targetPlaylistName := "", status := "pending", tracksTotal := 0,
    tracksMatched := 0, tracksFailed := 0, errorMessage := "" }

/-- Environment for the concrete empty-playlist run. -/
def emptyRunEnv : TransferEnv :=
  { fetch := .ok ([], "MyPlaylist"),
    create := .ok "tp1",
    perTrack := fun _ => { search := .error "unused", addOk := false } }

/-- C3 counterexample: on the empty-playlist path the code returns before
the `SourcePlaylistName` save, so the fetched name "MyPlaylist" is NOT
persisted, and the stored message is "Source playlist is empty" (capital
S), not the claimed "source playlist is empty". -/
theorem empty_playlist_claim_false :
    (finalTransfer emptyRunT0 "" emptyRunEnv).status = "failed" ∧
    (finalTransfer emptyRunT0 "" emptyRunEnv).sourcePlaylistName ≠ "MyPlaylist" ∧
    (finalTransfer emptyRunT0 "" emptyRunEnv).errorMessage ≠ "source playlist is empty" ∧
    (finalTransfer emptyRunT0 "" emptyRunEnv).errorMessage = "Source playlist is empty" := by
  decide

/-- C3 amended: a successful fetch returning an empty track list puts the
transfer into terminal status `failed` with error message
"Source playlist is empty", no rows are written, and the fetched source
playlist name is NOT persisted — the record keeps its prior
`sourcePlaylistName` (the name is saved only when the list is non-empty). -/
theorem empty_playlist_failure (t0 : Transfer) (req : String) (env : TransferEnv)
    (n : String) (hfe : env.fetch = .ok ([], n)) :
    finalTransfer t0 req env =
      { t0 with status := "failed", errorMessage := "Source playlist is empty" } ∧
    (processTransfer t0 req env).2 = [] := by
  simp [finalTransfer, processTransfer, hfe]

/-! ## Resilient API client (`RateLimitedHTTPClient`, package ratelimit)

`Do` is modelled over an oracle giving each attempt's outcome and each
limiter admission's result.  Sleeps are observable: the model returns the
list of slept durations (in seconds) alongside the result.  The
`Retry-After` header is modelled at the granularity of `getRetryAfter`'s
parse: absent, a duration parsed from a numeric value (seconds), a
duration until an RFC1123 date, or unparseable. -/

/-- The parse of the `Retry-After` header as seen by `getRetryAfter`. -/
inductive RetryAfterVal where
  /-- Header absent. -/
  | missing
  /-- Header parsed as a count of seconds (`time.ParseDuration(v + "s")`). -/
  | secondsVal (n : ℤ)
  /-- Header parsed as an RFC1123 date; `d` is `time.Until` that date in
  seconds (negative for a past date). -/
  | httpDateUntil (d : ℤ)
  /-- Header present but unparseable either way. -/
  | malformed
deriving DecidableEq, Repr

/-- The function `getRetryAfter`: the duration extracted from the header, 0 when the
header is absent or unparseable. -/
def getRetryAfter : RetryAfterVal → ℤ
  | .missing => 0
  | .secondsVal n => n
  | .httpDateUntil d => d
  | .malformed => 0

/-- An HTTP response as observed by the client: status code, the
`X-RateLimit-Remaining` header value ("" when absent) and the
`Retry-After` header. -/
structure HTTPResp where
  status : Nat
  rateLimitRemaining : String
  retryAfter : RetryAfterVal
deriving DecidableEq, Repr

/-- Outcome of executing one HTTP attempt. -/
inductive AttemptOutcome where
  /-- The call `client.Do` returned a network-level error. -/
  | netErr
  /-- The call `client.Do` returned a response. -/
  | resp (r : HTTPResp)
deriving DecidableEq, Repr

/-- Oracle for one `Do` call: the limiter admission result and the HTTP
outcome of each attempt, indexed by attempt number. -/
structure DoEnv where
  waitOk : Nat → Bool
  outcome : Nat → AttemptOutcome

/-- What `Do` hands back to its caller. -/
inductive DoResult where
  /-- A response was returned to the caller (2xx, a client error, or an
  exhausted server error). -/
  | gotResp (status : Nat)
  /-- The rate limiter admission failed. -/
  | waitErr
  /-- Network errors exhausted the retries. -/
  | netFailure
  /-- The "rate limited after N retries" error. -/
  | rateLimitedError
deriving DecidableEq, Repr

/-- The field `maxRetries` as set by `NewRateLimitedHTTPClient`. -/
def maxRetries : Nat := 3

/-- The check `isRateLimited`: status 429 or an `X-RateLimit-Remaining` header of "0". -/
def isRateLimitedResp (r : HTTPResp) : Bool :=
  r.status == 429 || r.rateLimitRemaining == "0"

/-- The duration slept by `handleRateLimitResponse`: the parsed
`Retry-After` duration when positive, else the backoff `(attempt+1)·5`
seconds. -/
def rateLimitSleep (r : HTTPResp) (attempt : Nat) : ℤ :=
  let retryAfter := getRetryAfter r.retryAfter
  if 0 < retryAfter then retryAfter else ((attempt : ℤ) + 1) * 5

/-- The retry loop of `Do` from a given attempt number; the fuel is the
number of remaining loop iterations (`maxRetries + 1 - attempt` at entry),
so the 0-fuel branch is never reached from `clientDo`.  Returns the result
and the list of slept durations in seconds. -/
def doAttempts (env : DoEnv) : Nat → Nat → DoResult × List ℤ
  | 0, _ => (.netFailure, [])
  | fuel + 1, attempt =>
    if env.waitOk attempt then
      match env.outcome attempt with
      | .netErr =>
        if attempt == maxRetries then (.netFailure, [])
        else
          let next := doAttempts env fuel (attempt + 1)
          (next.1, ((attempt : ℤ) + 1) :: next.2)
      | .resp r =>
        if isRateLimitedResp r then
          let slept := rateLimitSleep r attempt
          if attempt == maxRetries then (.rateLimitedError, [slept])
          else
            let next := doAttempts env fuel (attempt + 1)
            (next.1, slept :: next.2)
        else if 200 ≤ r.status && r.status < 300 then (.gotResp r.status, [])
        else if attempt == maxRetries then (.gotResp r.status, [])
        else if 500 ≤ r.status then
          let next := doAttempts env fuel (attempt + 1)
          (next.1, ((attempt : ℤ) + 1) :: next.2)
        else (.gotResp r.status, [])
    else (.waitErr, [])

/-- The method `RateLimitedHTTPClient.Do`: run the loop for attempts `0..maxRetries`. -/
def clientDo (env : DoEnv) : DoResult × List ℤ :=
  doAttempts env (maxRetries + 1) 0

/-! ## Credential lifecycle manager (`TokenManager`, package auth) -/

/-- The persisted `UserService` connection record. -/
structure UserService where
  userID : Nat
  serviceType : String
  accessToken : String
  refreshToken : String
  tokenExpiry : ℤ
deriving DecidableEq, Repr

/-- Outcome of the provider's token endpoint when a refresh is attempted:
new access token, new refresh token ("" when the provider omits one) and
new expiry, or an error. -/
structure RefreshEnv where
  newToken : Except String (String × String × ℤ)

/-- The method `TokenManager.RefreshTokenIfNeeded`, with `now` the current Unix time
in seconds.  Returns the (possibly updated) connection, the number of
token-endpoint network calls made, and the error if any.  A token whose
expiry is more than 5 minutes (300 s) in the future is left untouched with
zero network calls. -/
def refreshTokenIfNeeded (now : ℤ) (us : UserService) (env : RefreshEnv) :
    UserService × Nat × Option String :=
  if now + 300 < us.tokenExpiry then (us, 0, none)
  else if us.serviceType ≠ "google" ∧ us.serviceType ≠ "spotify" ∧
      us.serviceType ≠ "youtube" then
    (us, 0, some ("unsupported service: " ++ us.serviceType))
  else
    match env.newToken with
    | .error e => (us, 1, some ("failed to refresh token: " ++ e))
    | .ok (newAccess, newRefresh, newExpiry) =>
      ({ us with
          accessToken := newAccess
          refreshToken := if newRefresh ≠ "" then newRefresh else us.refreshToken
          tokenExpiry := newExpiry }, 1, none)

/-! ## Rate limiter (package ratelimit)

The `golang.org/x/time/rate` token bucket is modelled by its documented
semantics: a bucket created by `rate.NewLimiter(r, b)` starts full (`b`
tokens), regenerates `r` tokens per second up to the cap `b`, and
`Allow` consumes one token when at least one is available. -/

/-- A `rate.Limiter` token bucket. -/
structure TokenBucket where
  ratePerSec : ℚ
  burst : Nat
  tokens : ℚ
deriving DecidableEq, Repr

/-- The probe `Allow` on a single bucket after `elapsed` seconds since its last
event: regenerate, cap at `burst`, then consume one token if available. -/
def TokenBucket.allowAfter (b : TokenBucket) (elapsed : ℚ) : Bool × TokenBucket :=
  let regen := b.tokens + elapsed * b.ratePerSec
  let toks := if regen ≤ (b.burst : ℚ) then regen else (b.burst : ℚ)
  if 1 ≤ toks then (true, { b with tokens := toks - 1 })
  else (false, { b with tokens := toks })

/-- The limiter map: service name to bucket, as an association list. -/
def RateLimiter := List (String × TokenBucket)

/-- Look up the bucket for a service. -/
def lookupBucket : RateLimiter → String → Option TokenBucket
  | [], _ => none
  | (name, bucket) :: rest, service =>
    if name = service then some bucket else lookupBucket rest service

/-- Replace the bucket stored for a service. -/
def updateBucket : RateLimiter → String → TokenBucket → RateLimiter
  | [], _, _ => []
  | (name, bucket) :: rest, service, newBucket =>
    if name = service then (name, newBucket) :: rest
    else (name, bucket) :: updateBucket rest service newBucket

/-- The constructor `NewRateLimiter`: one bucket per entry of `serviceLimits` — spotify at
10 req/s with burst 20, youtube at 1 req/s with burst 5 — each starting
full. -/
def newRateLimiter : RateLimiter :=
  [("spotify", { ratePerSec := 10, burst := 20, tokens := 20 }),
   ("youtube", { ratePerSec := 1, burst := 5, tokens := 5 })]

/-- The method `RateLimiter.Allow` with `elapsed` seconds since the bucket's previous
event: `false` with no state change when no bucket is configured for the
service, otherwise the bucket's non-blocking probe. -/
def rateLimiterAllow (rl : RateLimiter) (service : String) (elapsed : ℚ) :
    Bool × RateLimiter :=
  match lookupBucket rl service with
  | none => (false, rl)
  | some bucket =>
    let r := bucket.allowAfter elapsed
    (r.1, updateBucket rl service r.2)

/-- The method `RateLimiter.Wait`: an error when no bucket is configured for the
service; otherwise the outcome of blocking on the bucket within the 30 s
admission timeout, which the oracle `bucketWait` supplies. -/
def rateLimiterWait (rl : RateLimiter) (service : String)
    (bucketWait : Except String Unit) : Except String Unit :=
  match lookupBucket rl service with
  | none => .error ("no rate limiter configured for service: " ++ service)
  | some _ => bucketWait

/-- Iterated probing: `n` successive immediate `Allow` calls (no time elapsing in between):
returns the list of results and the final limiter state. -/
def allowSeq (rl : RateLimiter) (service : String) : Nat → List Bool × RateLimiter
  | 0 => ([], rl)
  | n + 1 =>
    let r := rateLimiterAllow rl service 0
    let rest := allowSeq r.2 service n
    (r.1 :: rest.1, rest.2)

/-! ## Theorems about the resilient client, token manager and limiter -/

/-- C6 counterexample: a present `Retry-After: 0` header (parsed duration
0) on a 429 response at attempt 0 makes the client sleep the 5-second
backoff, not the header's 0-second duration — so "sleeps for the
Retry-After duration when that header is present" is false as stated. -/
theorem retry_after_zero_claim_false :
    rateLimitSleep ⟨429, "", RetryAfterVal.secondsVal 0⟩ 0 = 5 ∧
    getRetryAfter (RetryAfterVal.secondsVal 0) = 0 := by
  decide

/-- C6 amended: on a rate-limited response (status 429 or zero remaining
quota) the client sleeps the parsed `Retry-After` duration when that
duration is positive, otherwise the backoff `(attempt+1)·5` seconds (in
particular whenever the header is absent), and then retries; when all
`maxRetries + 1 = 4` attempts are rate-limited, `Do` returns the
rate-limited error instead of a response. -/
theorem rate_limited_retry_behavior :
    (∀ (r : HTTPResp) (attempt : Nat), 0 < getRetryAfter r.retryAfter →
      rateLimitSleep r attempt = getRetryAfter r.retryAfter) ∧
    (∀ (r : HTTPResp) (attempt : Nat), r.retryAfter = .missing →
      rateLimitSleep r attempt = ((attempt : ℤ) + 1) * 5) ∧
    (∀ env : DoEnv,
      (∀ i, i ≤ maxRetries → env.waitOk i = true ∧
        ∃ r, env.outcome i = .resp r ∧ isRateLimitedResp r = true) →
      (clientDo env).1 = .rateLimitedError) := by
  refine ⟨?_, ?_, ?_⟩
  · intro r attempt hpos
    simp [rateLimitSleep, if_pos hpos]
  · intro r attempt hmiss
    simp [rateLimitSleep, hmiss, getRetryAfter]
  · intro env h
    obtain ⟨w0, r0, ho0, hr0⟩ := h 0 (by decide)
    obtain ⟨w1, r1, ho1, hr1⟩ := h 1 (by decide)
    obtain ⟨w2, r2, ho2, hr2⟩ := h 2 (by decide)
    obtain ⟨w3, r3, ho3, hr3⟩ := h 3 (by decide)
    simp [clientDo, doAttempts, w0, w1, w2, w3, ho0, ho1, ho2, ho3,
      hr0, hr1, hr2, hr3, maxRetries]

/-- C7: a connection whose `tokenExpiry` is more than 5 minutes in the
future is left untouched by `RefreshTokenIfNeeded` with zero network
calls, and a second call while the token is still valid again performs
zero network calls and leaves the connection unchanged (idempotence). -/
theorem refresh_valid_token_noop (now now' : ℤ) (us : UserService)
    (env env' : RefreshEnv)
    (h : now + 300 < us.tokenExpiry) (h' : now' + 300 < us.tokenExpiry) :
    refreshTokenIfNeeded now us env = (us, 0, none) ∧
    refreshTokenIfNeeded now' (refreshTokenIfNeeded now us env).1 env' =
      (us, 0, none) := by
  have h1 : refreshTokenIfNeeded now us env = (us, 0, none) := by
    simp [refreshTokenIfNeeded, if_pos h]
  refine ⟨h1, ?_⟩
  rw [h1]
  simp [refreshTokenIfNeeded, if_pos h']

/-- C8: on a freshly constructed rate limiter, six immediate `Allow` calls
for the youtube service (configured with burst 5) return `true` exactly
five times and then `false`, before any token regenerates. -/
theorem youtube_burst_allows_exactly_five :
    (allowSeq newRateLimiter "youtube" 6).1 =
      [true, true, true, true, true, false] := by
  have hsy : ¬ ("spotify" : String) = "youtube" := by decide
  norm_num [allowSeq, rateLimiterAllow, newRateLimiter, lookupBucket, updateBucket,
    TokenBucket.allowAfter, hsy]

/-- C10: for a service other than spotify and youtube, the limiter built
by `NewRateLimiter` has no bucket, so `Allow` returns `false` and `Wait`
returns an error — an unconfigured provider is never admitted. -/
theorem unconfigured_service_denied (s : String)
    (hs1 : s ≠ "spotify") (hs2 : s ≠ "youtube")
    (bucketWait : Except String Unit) (elapsed : ℚ) :
    (rateLimiterAllow newRateLimiter s elapsed).1 = false ∧
    rateLimiterWait newRateLimiter s bucketWait =
      .error ("no rate limiter configured for service: " ++ s) := by
  have h1 : ¬ ("spotify" : String) = s := fun h => hs1 h.symm
  have h2 : ¬ ("youtube" : String) = s := fun h => hs2 h.symm
  have hl : lookupBucket newRateLimiter s = none := by
    simp [lookupBucket, newRateLimiter, h1, h2]
  exact ⟨by simp [rateLimiterAllow, hl], by simp [rateLimiterWait, hl]⟩

/-! ## Witnesses: the hypothesized theorems applied at concrete inputs -/

/-- A concrete three-track run for exercising the orchestrator theorems:
track 1 matches, track 2 is not found, track 3 matches. -/
def sampleEnv : TransferEnv :=
  { fetch := .ok
      ([{ id := "s1", name := "One More Time", artist := "Daft Punk",
          album := "Discovery", duration := 320, isrc := "" },
        { id := "s2", name := "Obscure B-Side", artist := "Nobody",
          album := "", duration := 100, isrc := "" },
        { id := "s3", name := "Aerodynamic", artist := "Daft Punk",
          album := "Discovery", duration := 212, isrc := "" }], "Legacy Mix"),
    create := .ok "target-pl-1",
    perTrack := fun i =>
      if i = 1 then { search := .error "track not found", addOk := true }
      else
        { search := .ok (⟨"t" ++ toString i, "found", "Daft Punk", "", 0, ""⟩, 9/10),
          addOk := true } }

/-- Witness for C1 at the concrete three-track run. -/
theorem transfer_counter_invariant_witness :
    (finalTransfer emptyRunT0 "" sampleEnv).tracksMatched +
        (finalTransfer emptyRunT0 "" sampleEnv).tracksFailed =
      (processTransfer emptyRunT0 "" sampleEnv).2.length ∧
    (processTransfer emptyRunT0 "" sampleEnv).2.length ≤
      (finalTransfer emptyRunT0 "" sampleEnv).tracksTotal ∧
    (∀ s ∈ (processTransfer emptyRunT0 "" sampleEnv).1,
      s.tracksTotal = 0 ∨
        s.tracksTotal = (finalTransfer emptyRunT0 "" sampleEnv).tracksTotal) :=
  transfer_counter_invariant emptyRunT0 "" sampleEnv rfl rfl rfl

/-- Witness for C2 at the concrete three-track run. -/
theorem transfer_final_status_witness :
    ((finalTransfer emptyRunT0 "" sampleEnv).tracksMatched = 0 →
      (finalTransfer emptyRunT0 "" sampleEnv).status = "failed") ∧
    ((finalTransfer emptyRunT0 "" sampleEnv).tracksFailed = 0 →
      (finalTransfer emptyRunT0 "" sampleEnv).status = "completed") ∧
    (0 < (finalTransfer emptyRunT0 "" sampleEnv).tracksMatched →
      0 < (finalTransfer emptyRunT0 "" sampleEnv).tracksFailed →
      (finalTransfer emptyRunT0 "" sampleEnv).status = "completed_with_errors") :=
  transfer_final_status emptyRunT0 "" sampleEnv _ _ _ rfl (by decide) rfl

/-- Witness for the amended C3 at the concrete empty-playlist run. -/
theorem empty_playlist_failure_witness :
    finalTransfer emptyRunT0 "" emptyRunEnv =
      { emptyRunT0 with
          status := "failed",
          errorMessage := "Source playlist is empty" } ∧
    (processTransfer emptyRunT0 "" emptyRunEnv).2 = [] :=
  empty_playlist_failure emptyRunT0 "" emptyRunEnv "MyPlaylist" rfl

/-- A `DoEnv` in which every attempt is admitted and answered 429 with no
`Retry-After` header. -/
def allRateLimitedEnv : DoEnv :=
  { waitOk := fun _ => true,
    outcome := fun _ => .resp ⟨429, "", RetryAfterVal.missing⟩ }

/-- Witness for the amended C6: positive `Retry-After` honored, absent
header backs off, and the all-rate-limited run returns the rate-limited
error. -/
theorem rate_limited_retry_behavior_witness :
    rateLimitSleep ⟨429, "", RetryAfterVal.secondsVal 7⟩ 1 =
      getRetryAfter (RetryAfterVal.secondsVal 7) ∧
    rateLimitSleep ⟨200, "0", RetryAfterVal.missing⟩ 2 = 15 ∧
    (clientDo allRateLimitedEnv).1 = .rateLimitedError :=
  ⟨rate_limited_retry_behavior.1 _ 1 (by decide),
   rate_limited_retry_behavior.2.1 _ 2 rfl,
   rate_limited_retry_behavior.2.2 allRateLimitedEnv
     (fun i _ => ⟨rfl, ⟨_, rfl, rfl⟩⟩)⟩

/-- A concrete connection with a token valid far into the future. -/
def freshUs : UserService :=
  { userID := 7, serviceType := "spotify", accessToken := "acc",
    refreshToken := "ref", tokenExpiry := 10000 }

/-- Witness for C7 at the concrete connection, current time 0. -/
theorem refresh_valid_token_noop_witness :
    refreshTokenIfNeeded 0 freshUs { newToken := .error "unused" } =
      (freshUs, 0, none) ∧
    refreshTokenIfNeeded 1 (refreshTokenIfNeeded 0 freshUs
        { newToken := .error "unused" }).1 { newToken := .error "unused" } =
      (freshUs, 0, none) :=
  refresh_valid_token_noop 0 1 freshUs _ _ (by decide) (by decide)

/-- Witness for C10 at the concrete unconfigured service "applemusic". -/
theorem unconfigured_service_denied_witness :
    (rateLimiterAllow newRateLimiter "applemusic" 0).1 = false ∧
    rateLimiterWait newRateLimiter "applemusic" (.ok ()) =
      .error ("no rate limiter configured for service: " ++ "applemusic") :=
  unconfigured_service_denied "applemusic" (by decide) (by decide) (.ok ()) 0

end SyncPlaylist
